import Mathlib

/-!
Shallow embedding of the frame-sampling / inference-scheduling pipeline of
`src/App.js` (TinyOnDeviceIDCardDetection).

Modelling conventions:
* JavaScript numbers are modelled as rationals (`ℚ`); the decimal constants of
  the source (0.95, 0.83, 1.62, …) are exact rationals here.
* `Math.round` (and, on the non-negative values produced by the score display,
  `Number.prototype.toFixed(0)`) both round half toward positive infinity; they
  are modelled by `jsRound`.
* Reading index `i` of a typed array is `List.get? i`: out-of-range access
  yields `undefined`, modelled as `none`; the comparison `undefined > 0.95`
  is `false`, which the embedding reproduces by matching on the option.
* The shared mutable pipeline state (React state plus the worklet shared
  values) is the record `AppState`; every handler of the source becomes a
  state-transforming function.
* External collaborators are parameters: the inference engine's behaviour on
  one call is an `EngineBehavior` (it throws — which also covers an empty
  output map, whose first-output lookup throws inside the same `try` — or
  returns the data of its first output tensor), the resize plugin's outcome on
  one frame is a `ResizeOutcome`, and elapsed wall-clock time is a parameter.
-/

namespace IdCard

/-- JavaScript `Math.round x` = floor of `x + 0.5` (half toward +∞); on the
values at which the source applies it, `(·).toFixed(0)` rounds identically
(ties pick the larger integer). -/
def jsRound (x : ℚ) : ℤ := ⌊x + 1/2⌋

/-- Source line 11: `const CONFIDENCE_THRESHOLD = 0.95`. -/
def CONFIDENCE_THRESHOLD : ℚ := 95 / 100

/-- Source line 12: `const TARGET_FPS = 2`. -/
def TARGET_FPS : ℚ := 2

/-- Detection label: `"FRONT"` or `"BACK"` in the source. -/
inductive Label
  | front
  | back
deriving DecidableEq

/-- Value stored by `setScanResult` (lines 63-66): a label and the rounded
percentage score; the source renders the percentage via `toFixed(0)`, numerically
`jsRound (score * 100)`. -/
structure ScanResult where
  label : Label
  score : ℤ
deriving DecidableEq

/-- Model status string: `"Loading..."`, `"✅ Ready"`, `"❌ Error"`. -/
inductive ModelStatus
  | loading
  | ready
  | error
deriving DecidableEq

/-- Shared pipeline state: React state `modelStatus`, `scanResult`, `latency`,
the session ref `sessionRef.current` (abstracted to presence), and the worklet
shared values `isModelReady`, `isInferenceBusy` (lines 24-30). -/
structure AppState where
  modelStatus : ModelStatus
  scanResult : Option ScanResult
  latency : ℕ
  sessionPresent : Bool
  isModelReady : Bool
  isInferenceBusy : Bool
deriving DecidableEq

/-- Initial state: `"Loading..."`, no result, latency 0, no session, both
shared flags false. -/
def initState : AppState :=
  { modelStatus := ModelStatus.loading
    scanResult := none
    latency := 0
    sessionPresent := false
    isModelReady := false
    isInferenceBusy := false }

/-- Behaviour of one engine call: it throws (any exception inside the `try`,
including the empty-output-map lookup), or resolves with the `data` of the
first output tensor. -/
inductive EngineBehavior
  | throws
  | returns (data : List ℚ)
deriving DecidableEq

/-- Outcome of the `resize` plugin call on one frame: throws, returns a falsy
value, or returns a usable buffer. -/
inductive ResizeOutcome
  | throws
  | failed
  | ok
deriving DecidableEq

/-- Result interpretation of lines 58-69: read `data[4]` (score) and `data[5]`
(class id); if `score > CONFIDENCE_THRESHOLD` publish a result whose label is
`FRONT` when `Math.round(clsId) === 0` (an absent index 5 gives
`Math.round(undefined) = NaN ≠ 0`, hence `BACK`) and whose score is the
rounded percentage, else publish `null`. An absent index 4 makes
`undefined > 0.95` false, taking the `null` branch. -/
def interpretOutput (data : List ℚ) : Option ScanResult :=
  match data[4]? with
  | none => none
  | some score =>
      if CONFIDENCE_THRESHOLD < score then
        some
          { label :=
              match data[5]? with
              | some clsId => if jsRound clsId = 0 then Label.front else Label.back
              | none => Label.back
            score := jsRound (score * 100) }
      else none

/-- `performInference` (lines 48-76): early return when the session ref is
null (note: this path precedes the `try`/`finally`, so it does not clear the
busy flag); otherwise run the engine inside `try`: on an exception only the
`finally` runs (busy cleared); on success set `scanResult` per
`interpretOutput`, set `latency` to the elapsed time, then the `finally`
clears the busy flag. -/
def performInference (s : AppState) (eng : EngineBehavior) (elapsed : ℕ) : AppState :=
  if !s.sessionPresent then s
  else
    match eng with
    | EngineBehavior.throws => { s with isInferenceBusy := false }
    | EngineBehavior.returns data =>
        { s with
            scanResult := interpretOutput data
            latency := elapsed
            isInferenceBusy := false }

/-- Body of the frame processor's rate-limited callback (lines 84-106), given
the resize plugin's outcome on this frame: drop the frame if busy or the model
is not ready; a resize that throws is caught and logged, a falsy resize result
skips the `if (resized)` block — in both cases the state is untouched; a
usable buffer sets the busy flag and schedules the inference task. The second
component records whether an inference task was started. The crop rectangle
handed to `resize` is `computeROI` of the frame dimensions. -/
def frameProcessorStep (s : AppState) (r : ResizeOutcome) : AppState × Bool :=
  if s.isInferenceBusy || !s.isModelReady then (s, false)
  else
    match r with
    | ResizeOutcome.throws => (s, false)
    | ResizeOutcome.failed => (s, false)
    | ResizeOutcome.ok => ({ s with isInferenceBusy := true }, true)

/-- Crop rectangle of lines 88-91. -/
structure ROI where
  x : ℚ
  y : ℚ
  width : ℚ
  height : ℚ

/-- Lines 88-91: `cropW = width * 0.83`, `cropH = cropW * 1.62`, centered. -/
def computeROI (w h : ℚ) : ROI :=
  { x := (w - w * (83/100)) / 2
    y := (h - w * (83/100) * (162/100)) / 2
    width := w * (83/100)
    height := w * (83/100) * (162/100) }

/-- Events mutating the shared state: model load resolution (lines 39-44) and
rejection (line 44), one admitted frame-processor callback, one run of the
scheduled inference task. -/
inductive Event
  | loadSuccess
  | loadFailure
  | frame (r : ResizeOutcome)
  | task (eng : EngineBehavior) (elapsed : ℕ)
deriving DecidableEq

/-- One event applied to the shared state. `loadSuccess` performs lines 40-42
(set session ref, set `isModelReady`, set status ready); `loadFailure`
performs line 44 (set status error only). -/
def step (s : AppState) : Event → AppState
  | Event.loadSuccess =>
      { s with
          sessionPresent := true
          isModelReady := true
          modelStatus := ModelStatus.ready }
  | Event.loadFailure => { s with modelStatus := ModelStatus.error }
  | Event.frame r => (frameProcessorStep s r).1
  | Event.task eng elapsed => performInference s eng elapsed

/-- State reached from startup after a sequence of events. -/
def run (evs : List Event) : AppState := evs.foldl step initState

/-- InferenceGate acquisition: the frame processor's check (line 84) then set
(line 101) of the busy flag, as one producer-context operation. Returns
(success, new flag). -/
def tryAcquire (b : Bool) : Bool × Bool :=
  if b then (false, b) else (true, true)

/-- InferenceGate release: the `finally` of line 74 clears the busy flag. -/
def release (_ : Bool) : Bool := false

/-- A gate operation: an acquisition attempt or a release. -/
inductive GateOp
  | tryAcquire
  | release
deriving DecidableEq

/-- Effect of one gate operation on the busy flag. -/
def gateApply (b : Bool) : GateOp → Bool
  | GateOp.tryAcquire => (tryAcquire b).2
  | GateOp.release => release b

/-- Busy flag right before the operation at position `n`, starting from `b`. -/
def stateAt (b : Bool) (ops : List GateOp) (n : ℕ) : Bool :=
  (ops.take n).foldl gateApply b

/-- Sampling interval of the 2 Hz rate limiter (in seconds). -/
def SAMPLE_INTERVAL : ℚ := 1 / TARGET_FPS

/-- Modelled from the spec: the RateLimiter realised by `runAtTargetFps`
(line 82), whose implementation lives in the `react-native-vision-camera`
dependency, not in this repository. Spec §4.1: maintain the last-admitted
timestamp (initially never, modelled `none`); return true and update the
timestamp iff `now - lastAdmitted >= interval`, else return false leaving the
state unchanged; the first call always admits. -/
def accept (st : Option ℚ) (now : ℚ) : Bool × Option ℚ :=
  match st with
  | none => (true, some now)
  | some lastAdmitted =>
      if SAMPLE_INTERVAL ≤ now - lastAdmitted then (true, some now)
      else (false, some lastAdmitted)

/-- Rate-limiter state right before the frame at position `n` of a timestamp
sequence. -/
def rlState (ts : List ℚ) (n : ℕ) : Option ℚ :=
  (ts.take n).foldl (fun st t => (accept st t).2) none

/-- Consistency of the shared flags with the session ref: the model-ready flag
(and hence an in-flight task, which is admitted only when the flag is set) is
only ever raised together with the session ref (lines 40-41). -/
def ReadyImpliesSession (s : AppState) : Prop :=
  (s.isModelReady = true → s.sessionPresent = true) ∧
  (s.isInferenceBusy = true → s.sessionPresent = true)

/-- Concrete state for the malformed-output analysis: model loaded, a FRONT
result at 97% published earlier with latency 5, a task in flight. -/
def busyFrontState : AppState :=
  { modelStatus := ModelStatus.ready
    scanResult := some { label := Label.front, score := 97 }
    latency := 5
    sessionPresent := true
    isModelReady := true
    isInferenceBusy := true }

/-! Helper lemmas. -/

/-- An invariant holds after a fold when it holds initially and each step
preserves it. -/
theorem foldl_inv {α β : Type} (f : β → α → β) (P : β → Prop) :
    ∀ (l : List α) (b : β), P b → (∀ s a, P s → P (f s a)) → P (l.foldl f b)
  | [], _, hb, _ => hb
  | a :: l, b, hb, hstep => foldl_inv f P l (f b a) (hstep b a hb) hstep

/-- Folding one element further, when position `n` exists. -/
theorem foldl_get_take {α β : Type} (f : β → α → β) :
    ∀ (l : List α) (n : ℕ) (b : β) (a : α), l[n]? = some a →
      (l.take (n + 1)).foldl f b = f ((l.take n).foldl f b) a := by
  intro l
  induction l with
  | nil => intro n b a h; simp at h
  | cons x xs ih =>
      intro n b a h
      cases n with
      | zero =>
          simp at h
          subst h
          simp
      | succ m =>
          rw [List.getElem?_cons_succ] at h
          simpa using ih m (f b x) a h

/-- Folding one element further past the end changes nothing. -/
theorem foldl_get_none {α β : Type} (f : β → α → β) :
    ∀ (l : List α) (n : ℕ) (b : β), l[n]? = none →
      (l.take (n + 1)).foldl f b = (l.take n).foldl f b := by
  intro l
  induction l with
  | nil => intro n b _; simp
  | cons x xs ih =>
      intro n b h
      cases n with
      | zero => simp at h
      | succ m =>
          rw [List.getElem?_cons_succ] at h
          simpa using ih m (f b x) h

/-- The frame processor never changes the ready flag. -/
theorem frameProcessorStep_ready (s : AppState) (r : ResizeOutcome) :
    ((frameProcessorStep s r).1).isModelReady = s.isModelReady := by
  unfold frameProcessorStep
  split
  · rfl
  · cases r <;> rfl

/-- The frame processor never changes the session ref. -/
theorem frameProcessorStep_session (s : AppState) (r : ResizeOutcome) :
    ((frameProcessorStep s r).1).sessionPresent = s.sessionPresent := by
  unfold frameProcessorStep
  split
  · rfl
  · cases r <;> rfl

/-- A resize that throws or returns a falsy value leaves the state untouched
and starts no inference; so does the guard at line 84. -/
theorem frameProcessorStep_drop (s : AppState) (r : ResizeOutcome)
    (h : r ≠ ResizeOutcome.ok) : frameProcessorStep s r = (s, false) := by
  unfold frameProcessorStep
  cases r with
  | throws => split <;> rfl
  | failed => split <;> rfl
  | ok => exact absurd rfl h

/-- An admitted frame with a usable buffer sets the busy flag and starts the
task. -/
theorem frameProcessorStep_ok (s : AppState) (hb : s.isInferenceBusy = false)
    (hr : s.isModelReady = true) :
    frameProcessorStep s ResizeOutcome.ok = ({ s with isInferenceBusy := true }, true) := by
  simp [frameProcessorStep, hb, hr]

/-- The inference task never changes the ready flag. -/
theorem performInference_ready (s : AppState) (eng : EngineBehavior) (elapsed : ℕ) :
    (performInference s eng elapsed).isModelReady = s.isModelReady := by
  unfold performInference
  split
  · rfl
  · cases eng <;> rfl

/-- The inference task never changes the session ref. -/
theorem performInference_session (s : AppState) (eng : EngineBehavior) (elapsed : ℕ) :
    (performInference s eng elapsed).sessionPresent = s.sessionPresent := by
  unfold performInference
  split
  · rfl
  · cases eng <;> rfl

/-- The inference task either ends with the busy flag cleared, or it took the
session-null early return and changed nothing. -/
theorem performInference_busy (s : AppState) (eng : EngineBehavior) (elapsed : ℕ) :
    (performInference s eng elapsed).isInferenceBusy = false ∨
      performInference s eng elapsed = s := by
  unfold performInference
  split
  · exact Or.inr rfl
  · cases eng <;> exact Or.inl rfl

/-- Every event except load success leaves the ready flag unchanged. -/
theorem step_ready_ne (s : AppState) (e : Event) (h : e ≠ Event.loadSuccess) :
    (step s e).isModelReady = s.isModelReady := by
  cases e with
  | loadSuccess => exact absurd rfl h
  | loadFailure => rfl
  | frame r => exact frameProcessorStep_ready s r
  | task eng elapsed => exact performInference_ready s eng elapsed

/-- Every event preserves the flag/session consistency invariant. -/
theorem step_ris (s : AppState) (e : Event) (h : ReadyImpliesSession s) :
    ReadyImpliesSession (step s e) := by
  obtain ⟨h1, h2⟩ := h
  cases e with
  | loadSuccess => exact ⟨fun _ => rfl, fun _ => rfl⟩
  | loadFailure => exact ⟨h1, h2⟩
  | frame r =>
      show ReadyImpliesSession (frameProcessorStep s r).1
      cases hr : r with
      | throws => rw [frameProcessorStep_drop s _ (by simp)]; exact ⟨h1, h2⟩
      | failed => rw [frameProcessorStep_drop s _ (by simp)]; exact ⟨h1, h2⟩
      | ok =>
          cases hb : s.isInferenceBusy with
          | true => simp [frameProcessorStep, hb]; exact ⟨h1, h2⟩
          | false =>
              cases hready : s.isModelReady with
              | false => simp [frameProcessorStep, hb, hready]; exact ⟨h1, h2⟩
              | true =>
                  rw [frameProcessorStep_ok s hb hready]
                  exact ⟨fun _ => h1 hready, fun _ => h1 hready⟩
  | task eng elapsed =>
      show ReadyImpliesSession (performInference s eng elapsed)
      rcases performInference_busy s eng elapsed with hb | heq
      · refine ⟨?_, ?_⟩
        · intro hx
          rw [performInference_session]
          exact h1 ((performInference_ready s eng elapsed).symm.trans hx)
        · intro hx
          rw [hb] at hx
          exact absurd hx (by simp)
      · rw [heq]; exact ⟨h1, h2⟩

/-- Every reachable state satisfies the flag/session consistency invariant. -/
theorem run_ris (evs : List Event) : ReadyImpliesSession (run evs) :=
  foldl_inv step ReadyImpliesSession evs initState
    ⟨fun hx => absurd hx (by simp [initState]), fun hx => absurd hx (by simp [initState])⟩
    (fun s e h => step_ris s e h)

/-- Without a load-success event the ready flag can never rise. -/
theorem foldl_notReady :
    ∀ (evs : List Event) (s : AppState), Event.loadSuccess ∉ evs →
      s.isModelReady = false → (evs.foldl step s).isModelReady = false := by
  intro evs
  induction evs with
  | nil => intro s _ h; simpa using h
  | cons e evs ih =>
      intro s hmem hready
      rw [List.foldl_cons]
      refine ih (step s e) (fun hc => hmem (List.mem_cons_of_mem _ hc)) ?_
      rw [step_ready_ne s e (fun hc => hmem (hc ▸ List.mem_cons_self _ _))]
      exact hready

/-- Reachable states of a trace with no load success are never ready. -/
theorem run_notReady (evs : List Event) (h : Event.loadSuccess ∉ evs) :
    (run evs).isModelReady = false :=
  foldl_notReady evs initState h rfl

/-- A try-acquire succeeds exactly when the busy flag is down. -/
theorem tryAcquire_fst (b : Bool) : (tryAcquire b).1 = !b := by
  cases b <;> rfl

/-- After any acquisition attempt the busy flag is up. -/
theorem gateApply_tryAcquire (b : Bool) : gateApply b GateOp.tryAcquire = true := by
  cases b <;> rfl

/-- Gate state one step further, when position `n` holds an operation. -/
theorem stateAt_succ (b : Bool) (ops : List GateOp) (n : ℕ) (op : GateOp)
    (h : ops[n]? = some op) :
    stateAt b ops (n + 1) = gateApply (stateAt b ops n) op :=
  foldl_get_take gateApply ops n b op h

/-- With no release between two positions, a raised busy flag stays raised. -/
theorem stateAt_stays (b : Bool) (ops : List GateOp) (i : ℕ) :
    ∀ (j : ℕ), i ≤ j → stateAt b ops i = true →
      (∀ k, i ≤ k → k < j → ops[k]? ≠ some GateOp.release) →
      stateAt b ops j = true := by
  intro j
  induction j with
  | zero =>
      intro hij hi _
      cases Nat.le_zero.mp hij
      exact hi
  | succ m ih =>
      intro hij hi hk
      rcases Nat.lt_or_ge i (m + 1) with hlt | hge
      · have him : i ≤ m := Nat.lt_succ_iff.mp hlt
        have hm : stateAt b ops m = true :=
          ih him hi (fun k hk1 hk2 => hk k hk1 (Nat.lt_succ_of_lt hk2))
        cases hop : ops[m]? with
        | none => rw [stateAt, foldl_get_none _ _ _ _ hop]; exact hm
        | some op =>
            rw [stateAt_succ b ops m op hop]
            cases op with
            | tryAcquire => exact gateApply_tryAcquire _
            | release => exact absurd hop (hk m him (Nat.lt_succ_self m))
      · have : i = m + 1 := Nat.le_antisymm hij hge
        exact this ▸ hi

/-! Claim theorems. -/

/-- C1: every run of the inference task that begins after the busy flag was
set (i.e. from a reachable state with the flag up) ends with the flag cleared,
whatever the engine call does — success, below-threshold result,
interpretation failure or engine exception are all covered by quantifying over
`EngineBehavior` — and immediately afterwards a new acquisition succeeds. -/
theorem busy_cleared_on_every_exit (evs : List Event) (eng : EngineBehavior)
    (elapsed : ℕ) (h : (run evs).isInferenceBusy = true) :
    (performInference (run evs) eng elapsed).isInferenceBusy = false
    ∧ (tryAcquire ((performInference (run evs) eng elapsed).isInferenceBusy)).1 = true := by
  have hs : (run evs).sessionPresent = true := (run_ris evs).2 h
  have hb : (performInference (run evs) eng elapsed).isInferenceBusy = false := by
    cases eng <;> simp [performInference, hs]
  exact ⟨hb, by rw [hb]; rfl⟩

/-- Witness for C1: after load success and an admitted frame the flag is up;
a run of the task on a throwing engine clears it and the next acquisition
succeeds. -/
theorem busy_cleared_on_every_exit_witness :
    (performInference (run [Event.loadSuccess, Event.frame ResizeOutcome.ok])
        EngineBehavior.throws 0).isInferenceBusy = false
    ∧ (tryAcquire ((performInference (run [Event.loadSuccess, Event.frame ResizeOutcome.ok])
        EngineBehavior.throws 0).isInferenceBusy)).1 = true :=
  busy_cleared_on_every_exit [Event.loadSuccess, Event.frame ResizeOutcome.ok]
    EngineBehavior.throws 0 (by decide)

/-- C2: for an output tensor with score `s` at index 4 and class id `c` at
index 5, a result is published iff `s` strictly exceeds the 0.95 threshold;
a published result is labelled FRONT iff `c` rounds to 0 and carries the
rounded percentage; and the task publishes exactly this interpretation. -/
theorem published_result_interpretation (data : List ℚ) (s c : ℚ)
    (h4 : data[4]? = some s) (h5 : data[5]? = some c) :
    ((interpretOutput data).isSome = true ↔ CONFIDENCE_THRESHOLD < s)
    ∧ (∀ r, interpretOutput data = some r →
        (r.label = Label.front ↔ jsRound c = 0) ∧ r.score = jsRound (s * 100))
    ∧ (∀ (st : AppState) (elapsed : ℕ), st.sessionPresent = true →
        (performInference st (EngineBehavior.returns data) elapsed).scanResult
          = interpretOutput data) := by
  refine ⟨?_, ?_, ?_⟩
  · by_cases hlt : CONFIDENCE_THRESHOLD < s <;> simp [interpretOutput, h4, hlt]
  · intro r hr
    simp only [interpretOutput, h4, h5] at hr
    by_cases hlt : CONFIDENCE_THRESHOLD < s
    · rw [if_pos hlt] at hr
      obtain rfl := Option.some.inj hr
      refine ⟨?_, rfl⟩
      by_cases hc : jsRound c = 0 <;> simp [hc]
    · rw [if_neg hlt] at hr
      exact absurd hr (by simp)
  · intro st elapsed hs
    simp [performInference, hs]

/-- Witness for C2: the claim's own example, score 0.97 and class id 0.2. -/
theorem published_result_interpretation_witness :
    ((interpretOutput [0, 0, 0, 0, 97/100, 2/10]).isSome = true
        ↔ CONFIDENCE_THRESHOLD < (97/100 : ℚ))
    ∧ (∀ r, interpretOutput [0, 0, 0, 0, 97/100, 2/10] = some r →
        (r.label = Label.front ↔ jsRound (2/10 : ℚ) = 0)
          ∧ r.score = jsRound ((97/100 : ℚ) * 100))
    ∧ (∀ (st : AppState) (elapsed : ℕ), st.sessionPresent = true →
        (performInference st (EngineBehavior.returns [0, 0, 0, 0, 97/100, 2/10])
            elapsed).scanResult
          = interpretOutput [0, 0, 0, 0, 97/100, 2/10]) :=
  published_result_interpretation [0, 0, 0, 0, 97/100, 2/10] (97/100) (2/10) rfl rfl

/-- C3: single-flight invariant of the gate-operation traces: two successful
acquisitions must have a release strictly between them, and right after any
release the next acquisition attempt succeeds. -/
theorem gate_single_flight (b : Bool) (ops : List GateOp) (i j : ℕ) (hij : i < j)
    (hiOp : ops[i]? = some GateOp.tryAcquire)
    ( _hiOk : (tryAcquire (stateAt b ops i)).1 = true)
    (hjOk : (tryAcquire (stateAt b ops j)).1 = true) :
    (∃ k, i < k ∧ k < j ∧ ops[k]? = some GateOp.release)
    ∧ (∀ k, ops[k]? = some GateOp.release →
        (tryAcquire (stateAt b ops (k + 1))).1 = true) := by
  constructor
  · by_contra hno
    push_neg at hno
    have h1 : stateAt b ops (i + 1) = true := by
      rw [stateAt_succ b ops i GateOp.tryAcquire hiOp]
      exact gateApply_tryAcquire _
    have h2 : stateAt b ops j = true := by
      refine stateAt_stays b ops (i + 1) j hij h1 ?_
      intro k hk1 hk2
      exact hno k (Nat.lt_of_lt_of_le (Nat.lt_succ_self i) hk1) hk2
    rw [h2] at hjOk
    simp [tryAcquire] at hjOk
  · intro k hk
    rw [stateAt_succ b ops k GateOp.release hk]
    rfl

/-- Witness for C3: the trace acquire-release-acquire, both acquisitions
succeeding. -/
theorem gate_single_flight_witness :
    (∃ k, 0 < k ∧ k < 2
        ∧ ([GateOp.tryAcquire, GateOp.release, GateOp.tryAcquire])[k]?
            = some GateOp.release)
    ∧ (∀ k, ([GateOp.tryAcquire, GateOp.release, GateOp.tryAcquire])[k]?
          = some GateOp.release →
        (tryAcquire (stateAt false
            [GateOp.tryAcquire, GateOp.release, GateOp.tryAcquire] (k + 1))).1 = true) :=
  gate_single_flight false [GateOp.tryAcquire, GateOp.release, GateOp.tryAcquire]
    0 2 (by decide) (by decide) (by decide) (by decide)

/-- C4 counterexample: an output tensor with fewer than 6 elements is NOT
treated like an engine error. From a state holding a published FRONT result
with latency 5, the empty tensor clears the result and overwrites the latency
(a normal below-threshold completion), while an engine exception leaves
both untouched. -/
theorem malformed_output_not_engine_error_cex :
    ([] : List ℚ).length < 6
    ∧ (performInference busyFrontState (EngineBehavior.returns []) 7).scanResult = none
    ∧ (performInference busyFrontState (EngineBehavior.returns []) 7).latency = 7
    ∧ (performInference busyFrontState EngineBehavior.throws 7).scanResult
        = some { label := Label.front, score := 97 }
    ∧ (performInference busyFrontState EngineBehavior.throws 7).latency = 5 :=
  ⟨by decide, rfl, rfl, rfl, rfl⟩

/-- C4 (amended): an output tensor with fewer than 6 elements never throws:
the task runs to normal completion — gate released, no exception reaches the
producer context — updating the shared state exactly as a completed inference
(latency overwritten, the published result replaced by the interpretation of
the partial tensor, which is absent whenever index 4 is missing), rather than
taking the engine-error path that leaves result and latency untouched. -/
theorem malformed_output_completes_normally (data : List ℚ)
    ( _hlen : data.length < 6) (s : AppState) (elapsed : ℕ)
    (hs : s.sessionPresent = true) :
    performInference s (EngineBehavior.returns data) elapsed
      = { s with
            scanResult := interpretOutput data
            latency := elapsed
            isInferenceBusy := false }
    ∧ (data.length ≤ 4 → interpretOutput data = none) := by
  constructor
  · simp [performInference, hs]
  · intro h4
    have : data[4]? = none := List.getElem?_eq_none h4
    simp [interpretOutput, this]

/-- Witness for C4 (amended): the empty tensor from the published-FRONT
state. -/
theorem malformed_output_completes_normally_witness :
    performInference busyFrontState (EngineBehavior.returns []) 7
      = { busyFrontState with
            scanResult := interpretOutput []
            latency := 7
            isInferenceBusy := false }
    ∧ (([] : List ℚ).length ≤ 4 → interpretOutput [] = none) :=
  malformed_output_completes_normally [] (by decide) busyFrontState 7 rfl

/-- C5: frame condition of the engine-error path: when the engine call throws,
the task changes nothing but the busy flag — previously published result,
latency and every other field are left exactly as they were. -/
theorem engine_failure_preserves_state (s : AppState) (elapsed : ℕ)
    (hs : s.sessionPresent = true) :
    performInference s EngineBehavior.throws elapsed
      = { s with isInferenceBusy := false } := by
  simp [performInference, hs]

/-- Witness for C5: a throwing engine call from the published-FRONT state. -/
theorem engine_failure_preserves_state_witness :
    performInference busyFrontState EngineBehavior.throws 9
      = { busyFrontState with isInferenceBusy := false } :=
  engine_failure_preserves_state busyFrontState 9 rfl

/-- C6: readiness gating: along any trace without a successful model load the
pipeline never becomes ready, every frame (at any point of the trace) is
dropped with the state untouched and no inference started, and a load failure
only sets the status flag — it crashes nothing and readies nothing. -/
theorem readiness_gating (evs : List Event) (h : Event.loadSuccess ∉ evs) :
    (run evs).isModelReady = false
    ∧ (∀ (n : ℕ) (r : ResizeOutcome),
        frameProcessorStep (run (evs.take n)) r = (run (evs.take n), false))
    ∧ (∀ s : AppState,
        step s Event.loadFailure = { s with modelStatus := ModelStatus.error }) := by
  refine ⟨run_notReady evs h, ?_, fun s => rfl⟩
  intro n r
  have hmem : Event.loadSuccess ∉ evs.take n :=
    fun hc => h (List.take_subset n evs hc)
  have hn : (run (evs.take n)).isModelReady = false := run_notReady _ hmem
  simp [frameProcessorStep, hn]

/-- Witness for C6: a failing load followed by a frame. -/
theorem readiness_gating_witness :
    (run [Event.loadFailure, Event.frame ResizeOutcome.ok]).isModelReady = false
    ∧ (∀ (n : ℕ) (r : ResizeOutcome),
        frameProcessorStep (run ([Event.loadFailure, Event.frame ResizeOutcome.ok].take n)) r
          = (run ([Event.loadFailure, Event.frame ResizeOutcome.ok].take n), false))
    ∧ (∀ s : AppState,
        step s Event.loadFailure = { s with modelStatus := ModelStatus.error }) :=
  readiness_gating [Event.loadFailure, Event.frame ResizeOutcome.ok] (by decide)

/-- C7: rate limiting (spec-modelled sampler): the frame at position `n` of a
timestamp sequence is admitted iff it is at least one interval after the
stored last-admitted timestamp, admission stores the new timestamp, rejection
changes nothing, and the first frame is always admitted. -/
theorem rate_limiter_admission (ts : List ℚ) (n : ℕ) (t : ℚ)
    (h : ts[n]? = some t) :
    (∀ u, rlState ts n = some u →
        ((accept (rlState ts n) t).1 = true ↔ SAMPLE_INTERVAL ≤ t - u))
    ∧ ((accept (rlState ts n) t).1 = true → rlState ts (n + 1) = some t)
    ∧ ((accept (rlState ts n) t).1 = false → rlState ts (n + 1) = rlState ts n)
    ∧ (accept (rlState ts 0) t).1 = true := by
  have hstep : rlState ts (n + 1) = (accept (rlState ts n) t).2 :=
    foldl_get_take (fun st u => (accept st u).2) ts n none t h
  refine ⟨?_, ?_, ?_, ?_⟩
  · intro u hu
    rw [hu]
    by_cases hc : SAMPLE_INTERVAL ≤ t - u <;> simp [accept, hc]
  · intro htrue
    rw [hstep]
    cases hu : rlState ts n with
    | none => simp [accept]
    | some u =>
        rw [hu] at htrue
        by_cases hc : SAMPLE_INTERVAL ≤ t - u
        · simp [accept, hc]
        · simp [accept, hc] at htrue
  · intro hfalse
    rw [hstep]
    cases hu : rlState ts n with
    | none => rw [hu] at hfalse; simp [accept] at hfalse
    | some u =>
        rw [hu] at hfalse
        by_cases hc : SAMPLE_INTERVAL ≤ t - u
        · simp [accept, hc] at hfalse
        · simp [accept, hc]
  · rfl

/-- Witness for C7: the first frame of a concrete timestamp sequence. -/
theorem rate_limiter_admission_witness :
    (∀ u, rlState [0, 1/4, 3/4] 0 = some u →
        ((accept (rlState [0, 1/4, 3/4] 0) 0).1 = true ↔ SAMPLE_INTERVAL ≤ 0 - u))
    ∧ ((accept (rlState [0, 1/4, 3/4] 0) 0).1 = true
        → rlState [0, 1/4, 3/4] (0 + 1) = some 0)
    ∧ ((accept (rlState [0, 1/4, 3/4] 0) 0).1 = false
        → rlState [0, 1/4, 3/4] (0 + 1) = rlState [0, 1/4, 3/4] 0)
    ∧ (accept (rlState [0, 1/4, 3/4] 0) 0).1 = true :=
  rate_limiter_admission [0, 1/4, 3/4] 0 0 rfl

/-- C8: the crop rectangle is not clipped to the frame: whenever the frame
height is below 1.3446 (= 0.83 × 1.62) times its width, the rectangle's
origin is above the frame (negative y) and its height exceeds the frame
height. -/
theorem roi_exceeds_frame (w h : ℚ) (hh : h < (13446/10000) * w) :
    (computeROI w h).y < 0 ∧ h < (computeROI w h).height := by
  have key : w * (83/100) * (162/100) = (13446/10000) * w := by ring
  constructor
  · show (h - w * (83/100) * (162/100)) / 2 < 0
    rw [key]
    linarith
  · show h < w * (83/100) * (162/100)
    rw [key]
    exact hh

/-- Witness for C8: a square 1000 × 1000 frame. -/
theorem roi_exceeds_frame_witness :
    (computeROI 1000 1000).y < 0 ∧ (1000 : ℚ) < (computeROI 1000 1000).height :=
  roi_exceeds_frame 1000 1000 (by norm_num)

/-- C9: preprocessing precedes gate acquisition: a frame whose resize throws
or returns a falsy value is dropped inside the producer context with the
state — in particular the busy flag — untouched and no inference started. -/
theorem resize_failure_leaves_gate (s : AppState) (r : ResizeOutcome)
    (h : r ≠ ResizeOutcome.ok) :
    frameProcessorStep s r = (s, false)
    ∧ (s.isInferenceBusy = false →
        ((frameProcessorStep s r).1).isInferenceBusy = false) := by
  have hd := frameProcessorStep_drop s r h
  exact ⟨hd, fun hb => by rw [hd]; exact hb⟩

/-- Witness for C9: a throwing resize on a ready, idle pipeline. -/
theorem resize_failure_leaves_gate_witness :
    frameProcessorStep ⟨ModelStatus.ready, none, 0, true, true, false⟩
        ResizeOutcome.throws
      = (⟨ModelStatus.ready, none, 0, true, true, false⟩, false)
    ∧ ((⟨ModelStatus.ready, none, 0, true, true, false⟩ : AppState).isInferenceBusy = false →
        ((frameProcessorStep ⟨ModelStatus.ready, none, 0, true, true, false⟩
            ResizeOutcome.throws).1).isInferenceBusy = false) :=
  resize_failure_leaves_gate ⟨ModelStatus.ready, none, 0, true, true, false⟩
    ResizeOutcome.throws (by decide)

/-- C10: the ready flag is monotone: it starts false, every event preserves it
once set, and no event other than a successful model load ever changes it. -/
theorem model_ready_monotone :
    initState.isModelReady = false
    ∧ (∀ (s : AppState) (e : Event),
        s.isModelReady = true → (step s e).isModelReady = true)
    ∧ (∀ (s : AppState) (e : Event), e ≠ Event.loadSuccess →
        (step s e).isModelReady = s.isModelReady) := by
  refine ⟨rfl, ?_, fun s e h => step_ready_ne s e h⟩
  intro s e hready
  cases e with
  | loadSuccess => rfl
  | loadFailure => exact hready
  | frame r => exact (frameProcessorStep_ready s r).trans hready
  | task eng elapsed => exact (performInference_ready s eng elapsed).trans hready

/-- Witness for C10: a ready pipeline stays ready through a load failure; a
frame event never changes the flag from startup. -/
theorem model_ready_monotone_witness :
    (step ⟨ModelStatus.ready, none, 0, true, true, false⟩ Event.loadFailure).isModelReady = true
    ∧ (step initState (Event.frame ResizeOutcome.ok)).isModelReady
        = initState.isModelReady :=
  ⟨model_ready_monotone.2.1 ⟨ModelStatus.ready, none, 0, true, true, false⟩
      Event.loadFailure rfl,
   model_ready_monotone.2.2 initState (Event.frame ResizeOutcome.ok) (by decide)⟩

end IdCard
